import Mathlib

/-!
Verification of the SQLCheck rule-evaluation engine (src/src/list.cpp and its
spec).  SQL statements are modelled as `List Char` (the already-lowercased,
normalized text the engine receives).  Regular expressions from the rule
catalog are embedded as a small AST `RE` with an executable match-length
semantics; `countMatches` models counting the non-overlapping matches that
`std::sregex_iterator` enumerates, choosing at each leftmost matching
position the longest match.  All patterns used by the claims are either
literal strings (where leftmost-longest and ECMAScript-greedy counting
coincide) or are only tested for the existence of a match (where any
match-selection policy agrees).
-/

set_option maxRecDepth 100000

namespace SqlCheck

/-- Regular-expression AST covering the constructs appearing in the rule
catalog of list.cpp: literal characters, character classes (`\s`, `\S`,
`[0-9]`, ...), `.`-style classes, concatenation, alternation and Kleene star.
`emp` matches the empty string. -/
inductive RE : Type where
  | emp : RE
  | ch : Char → RE
  | cls : (Char → Bool) → RE
  | cat : RE → RE → RE
  | alt : RE → RE → RE
  | star : RE → RE

/-- Literal regex for a list of characters (each character taken verbatim,
as in the escaped/plain literals of the C++ patterns). -/
def litChars (l : List Char) : RE :=
  (l.map RE.ch).foldr RE.cat RE.emp

/-- Literal regex for a string literal. -/
def lit (s : String) : RE :=
  litChars s.data

/-- Regex `r?` (zero or one occurrence). -/
def opt (r : RE) : RE :=
  RE.alt r RE.emp

/-- Regex `r+` (one or more occurrences). -/
def plus (r : RE) : RE :=
  RE.cat r (RE.star r)

/-- The `\s` character class of std::regex (space, tab, newline, vertical
tab, form feed, carriage return). -/
def isSpaceChar (c : Char) : Bool :=
  c = ' ' || c = '\t' || c = '\n' || c = '\x0b' || c = '\x0c' || c = '\r'

/-- The `\S` character class (complement of `\s`). -/
def isNonSpaceChar (c : Char) : Bool :=
  !(isSpaceChar c)

/-- The `[0-9]` character class. -/
def isDigitChar (c : Char) : Bool :=
  decide ('0' ≤ c) && decide (c ≤ '9')

/-- The `.` metacharacter of std::regex: any character except a line
terminator. -/
def isDotChar (c : Char) : Bool :=
  !(c = '\n' || c = '\r')

/-- The `[A-za-z\-_@]` character class of the Metadata Tribbles pattern
(the first range really is A through z, as written in the source). -/
def isTribbleChar (c : Char) : Bool :=
  (decide ('A' ≤ c) && decide (c ≤ 'z')) ||
  (decide ('a' ≤ c) && decide (c ≤ 'z')) ||
  c = '-' || c = '_' || c = '@'

/-- One closure round used for the lengths matchable by `r*`: from every
reachable position `p`, add `p + n` for every length `n` matchable by `r`
at the suffix starting at `p`. -/
def starRound (f : List Char → List Nat) (s : List Char) (acc : List Nat) : List Nat :=
  (acc ++ acc.flatMap (fun p => (f (s.drop p)).map (fun n => p + n))).dedup

/-- Iterated closure rounds; `s.length + 1` rounds reach the fixpoint since
positions are bounded by `s.length`. -/
def starIter (f : List Char → List Nat) (s : List Char) : Nat → List Nat → List Nat
  | 0, acc => acc
  | k + 1, acc => starIter f s k (starRound f s acc)

/-- All lengths `n` such that the regex matches the first `n` characters of
`s` (the possible match lengths at this position). -/
def mlens : RE → List Char → List Nat
  | .emp, _ => [0]
  | .ch c, s =>
    match s with
    | [] => []
    | a :: _ => if a = c then [1] else []
  | .cls f, s =>
    match s with
    | [] => []
    | a :: _ => if f a then [1] else []
  | .alt r1 r2, s => mlens r1 s ++ mlens r2 s
  | .cat r1 r2, s => (mlens r1 s).flatMap (fun n => (mlens r2 (s.drop n)).map (fun m => n + m))
  | .star r, s => starIter (fun t => mlens r t) s (s.length + 1) [0]

/-- Fuel-indexed scan modelling `std::sregex_iterator`: at each position, if
the regex matches, count one match (taking the longest length) and resume
after it (advancing one character past an empty match); otherwise slide one
character right.  Fuel `s.length + 1` always suffices. -/
def countAux (r : RE) : Nat → List Char → Nat
  | 0, _ => 0
  | fuel + 1, s =>
    match (mlens r s).max? with
    | some n =>
      match s with
      | [] => 1
      | _ :: rest => 1 + countAux r fuel (if n = 0 then rest else s.drop n)
    | none =>
      match s with
      | [] => 0
      | _ :: rest => countAux r fuel rest

/-- Number of non-overlapping matches of the regex in the statement text,
modelling the match count of `std::sregex_iterator`. -/
def countMatches (r : RE) (s : List Char) : Nat :=
  countAux r (s.length + 1) s

/-- Model of `std::string::find(pat) != npos` together with the suffix after
the first occurrence: returns the text following the first occurrence of
`pat`, or `none` when `pat` does not occur. -/
def afterSub (pat : List Char) : List Char → Option (List Char)
  | [] => if pat = [] then some [] else none
  | c :: rest =>
    if pat.isPrefixOf (c :: rest) then some ((c :: rest).drop pat.length)
    else afterSub pat rest

/-- Model of `std::string::find(pat) != npos`. -/
def containsSub (pat : List Char) (s : List Char) : Bool :=
  (afterSub pat s).isSome

/-- The substring template `"create table"` used by GetTableName,
IsDDLStatement and IsCreateStatement in list.cpp. -/
def createTableTemplate : List Char :=
  "create table".data

/-- The substring template `"alter table"` used by IsDDLStatement. -/
def alterTableTemplate : List Char :=
  "alter table".data

/-- Squeeze every run of two or more spaces down to a single space; this is
the effect of the `( ) +` alternative of the `std::regex_replace` call in
GetTableName (the captured first space is kept, the following spaces are
removed). -/
def squeezeSpaces : List Char → List Char
  | [] => []
  | [c] => [c]
  | c1 :: c2 :: rest =>
    if c1 = ' ' ∧ c2 = ' ' then squeezeSpaces (c2 :: rest)
    else c1 :: squeezeSpaces (c2 :: rest)

/-- Remove every trailing space; this is the effect of the ` +$` alternative
of the `std::regex_replace` call in GetTableName. -/
def trimTrailingSpaces (l : List Char) : List Char :=
  (l.reverse.dropWhile (fun c => c = ' ')).reverse

/-- Model of `std::regex_replace(rest, std::regex("^ +| +$|( ) +"), "$1")`
in GetTableName: the `^ +` alternative deletes the leading run of spaces,
the ` +$` alternative deletes the trailing run, and `( ) +` replaces every
interior run of two or more spaces by a single space. -/
def collapseSpaces (l : List Char) : List Char :=
  trimTrailingSpaces (squeezeSpaces (l.dropWhile (fun c => c = ' ')))

/-- GetTableName from list.cpp: locate the first occurrence of
`"create table"`; if absent return the empty string; otherwise take the
text after the template, collapse/trim spaces with the regex_replace above,
and keep the prefix up to the first space (`rest.substr(0, rest.find(' '))`,
which is the whole rest when no space occurs). -/
def GetTableName (s : List Char) : List Char :=
  match afterSub createTableTemplate s with
  | none => []
  | some rest => (collapseSpaces rest).takeWhile (fun c => decide (c ≠ ' '))

/-- IsDDLStatement from list.cpp: the text contains `"create table"` or
`"alter table"` as a substring. -/
def IsDDLStatement (s : List Char) : Bool :=
  containsSub createTableTemplate s || containsSub alterTableTemplate s

/-- IsCreateStatement from list.cpp: the text contains `"create table"` as a
substring. -/
def IsCreateStatement (s : List Char) : Bool :=
  containsSub createTableTemplate s

/-- Modelled from the spec: the `LogLevel` enumeration of the missing
configuration.h, restricted to the three severities the spec's data model
names (Info < Warning < Error); list.cpp only ever passes
LOG_LEVEL_INFO/WARN/ERROR for rules. -/
inductive LogLevel : Type where
  | info : LogLevel
  | warn : LogLevel
  | error : LogLevel
deriving DecidableEq, Repr

/-- Modelled from the spec: the rank of a severity under the risk-tier
mapping of §4.3 (tier 1 admits Info+Warning+Error, tier 2 admits
Warning+Error, tier 3 admits Error only): a finding of level `l` is admitted
at tier `t` exactly when `t ≤ l.rank`. -/
def LogLevel.rank : LogLevel → Nat
  | .info => 1
  | .warn => 2
  | .error => 3

/-- A finding: one fired rule on one statement, carrying the rule's title
and its risk level. -/
structure Finding : Type where
  title : String
  level : LogLevel
deriving DecidableEq, Repr

/-- A rule of the catalog, as configured by its Check function in list.cpp:
title, risk level, the `min_count` threshold and the `exists` boolean the
function passes to CheckPattern, and the pattern, computed from the
statement so that applicability guards (early returns in list.cpp) and the
dynamically built patterns are represented by `none`/`some`. -/
structure Rule : Type where
  title : String
  level : LogLevel
  minCount : Nat
  existsFlag : Bool
  pattern : List Char → Option RE

/-- Modelled from the spec: whether a rule fires on a statement.  The body
of CheckPattern (checker.cpp) is not under src/; spec §4.2 gives
`fired := count ≥ min_occurrences` after the applicability guard.  Every
call site in list.cpp additionally passes a boolean (called `exists` in the
old checker.h-era interface): `true` for every rule except
"Primary Key Does Not Exist" and "Foreign Key Does Not Exist", which pass
`false`; for those two rules the titles, the advisory messages
("Consider adding a primary key") and the README fix the inverted sense:
they fire when the pattern's match count stays below the threshold. -/
def Rule.fires (r : Rule) (s : List Char) : Bool :=
  match r.pattern s with
  | none => false
  | some re =>
    if r.existsFlag then decide (r.minCount ≤ countMatches re s)
    else decide (countMatches re s < r.minCount)

/-- Modelled from the spec: the risk filter of §4.3 composed with firing
(CheckPattern in checker.cpp first returns when the rule's level is below
the configured minimum risk tier, then reports the finding when the rule
fires). -/
def Rule.eval (r : Rule) (tier : Nat) (s : List Char) : Option Finding :=
  if r.level.rank < tier then none
  else if r.fires s then some ⟨r.title, r.level⟩ else none

/-- Pattern `(id\s+varchar)|(id\s+text)|(id\s+regexp)` of
CheckMultiValuedAttribute. -/
def multiValuedAttributeRE : RE :=
  RE.alt (RE.cat (lit "id") (RE.cat (plus (RE.cls isSpaceChar)) (lit "varchar")))
    (RE.alt (RE.cat (lit "id") (RE.cat (plus (RE.cls isSpaceChar)) (lit "text")))
      (RE.cat (lit "id") (RE.cat (plus (RE.cls isSpaceChar)) (lit "regexp"))))

/-- Pattern `(references\s+<table_name>)` of CheckRecursiveDependency, built
dynamically from the extracted table name (the name's characters spliced in
verbatim). -/
def recursiveDependencyRE (tableName : List Char) : RE :=
  RE.cat (lit "references") (RE.cat (plus (RE.cls isSpaceChar)) (litChars tableName))

/-- Pattern `(primary key)` of CheckPrimaryKeyExists. -/
def primaryKeyRE : RE :=
  lit "primary key"

/-- Pattern `(\s+[\(]?id\s+)|(,id\s+)|(\s+id\s+serial)` of
CheckGenericPrimaryKey. -/
def genericPrimaryKeyRE : RE :=
  RE.alt
    (RE.cat (plus (RE.cls isSpaceChar))
      (RE.cat (opt (RE.ch '(')) (RE.cat (lit "id") (plus (RE.cls isSpaceChar)))))
    (RE.alt
      (RE.cat (RE.ch ',') (RE.cat (lit "id") (plus (RE.cls isSpaceChar))))
      (RE.cat (plus (RE.cls isSpaceChar))
        (RE.cat (lit "id") (RE.cat (plus (RE.cls isSpaceChar)) (lit "serial")))))

/-- Pattern `(foreign key)` of CheckForeignKeyExists. -/
def foreignKeyRE : RE :=
  lit "foreign key"

/-- Pattern `(attribute)` of CheckVariableAttribute. -/
def attributeRE : RE :=
  lit "attribute"

/-- Pattern `[A-za-z\-_@]+[0-9]+ ` of CheckMetadataTribbles. -/
def metadataTribblesRE : RE :=
  RE.cat (plus (RE.cls isTribbleChar)) (RE.cat (plus (RE.cls isDigitChar)) (RE.ch ' '))

/-- Pattern `(float)|(real)|(double precision)|(0\.000[0-9]*)` of
CheckFloat. -/
def floatRE : RE :=
  RE.alt (lit "float")
    (RE.alt (lit "real")
      (RE.alt (lit "double precision")
        (RE.cat (lit "0.000") (RE.star (RE.cls isDigitChar)))))

/-- Pattern `(enum)|(in \()` of CheckValuesInDefinition. -/
def valuesInDefinitionRE : RE :=
  RE.alt (lit "enum") (lit "in (")

/-- Pattern `(path varchar)|(unlink\s?\()` of CheckExternalFiles. -/
def externalFilesRE : RE :=
  RE.alt (lit "path varchar")
    (RE.cat (lit "unlink") (RE.cat (opt (RE.cls isSpaceChar)) (RE.ch '(')))

/-- Pattern `(index)` of CheckIndexCount. -/
def indexRE : RE :=
  lit "index"

/-- Pattern `(create index)` of CheckIndexAttributeOrder. -/
def createIndexRE : RE :=
  lit "create index"

/-- Pattern `(select\s+\*)` of CheckSelectStar. -/
def selectStarRE : RE :=
  RE.cat (lit "select") (RE.cat (plus (RE.cls isSpaceChar)) (RE.ch '*'))

/-- Pattern `(null)` of CheckNullUsage. -/
def nullRE : RE :=
  lit "null"

/-- Pattern `(not null)` of CheckNotNullUsage. -/
def notNullRE : RE :=
  lit "not null"

/-- Pattern `\|\|` of CheckConcatenation. -/
def concatenationRE : RE :=
  lit "||"

/-- Pattern `(group by)` of CheckGroupByUsage. -/
def groupByRE : RE :=
  lit "group by"

/-- Pattern `(order by rand\()` of CheckOrderByRand. -/
def orderByRandRE : RE :=
  lit "order by rand("

/-- Pattern `(like)|(regexp)|(similar to)` of CheckPatternMatching. -/
def patternMatchingRE : RE :=
  RE.alt (lit "like") (RE.alt (lit "regexp") (lit "similar to"))

/-- The `true_pattern` regex `.*` of CheckSpaghettiQuery. -/
def spaghettiTrueRE : RE :=
  RE.star (RE.cls isDotChar)

/-- The `false_pattern` regex `pattern must not exist` of
CheckSpaghettiQuery, a sentinel literal intended never to match. -/
def spaghettiFalseRE : RE :=
  lit "pattern must not exist"

/-- Pattern `(join)` of CheckJoinCount. -/
def joinRE : RE :=
  lit "join"

/-- Pattern `(distinct)` of CheckDistinctCount. -/
def distinctRE : RE :=
  lit "distinct"

/-- Pattern `(insert into \S+ values)` of CheckImplicitColumns. -/
def implicitColumnsRE : RE :=
  RE.cat (lit "insert into ") (RE.cat (plus (RE.cls isNonSpaceChar)) (lit " values"))

/-- Pattern `(having)` of CheckHaving. -/
def havingRE : RE :=
  lit "having"

/-- Pattern `(select)` of CheckNesting. -/
def selectRE : RE :=
  lit "select"

/-- Pattern `(or)` of CheckOr. -/
def orRE : RE :=
  lit "or"

/-- Pattern `(union)` of CheckUnion. -/
def unionRE : RE :=
  lit "union"

/-- Pattern `(distinct.*join)` of CheckDistinctJoin. -/
def distinctJoinRE : RE :=
  RE.cat (lit "distinct") (RE.cat (RE.star (RE.cls isDotChar)) (lit "join"))

/-- Pattern
`(password varchar)|(password text)|(password =)|(pwd varchar)|(pwd text)|(pwd =)`
of CheckReadablePasswords. -/
def readablePasswordsRE : RE :=
  RE.alt (lit "password varchar")
    (RE.alt (lit "password text")
      (RE.alt (lit "password =")
        (RE.alt (lit "pwd varchar")
          (RE.alt (lit "pwd text") (lit "pwd =")))))

/-- CheckMultiValuedAttribute (list.cpp): no guard, ERROR, exists, count 1. -/
def CheckMultiValuedAttribute : Rule :=
  { title := "Multi-Valued Attribute", level := .error, minCount := 1,
    existsFlag := true, pattern := fun _ => some multiValuedAttributeRE }

/-- CheckRecursiveDependency (list.cpp): returns immediately when
GetTableName is empty, otherwise tests the dynamically built pattern;
ERROR, exists, count 1. -/
def CheckRecursiveDependency : Rule :=
  { title := "Recursive Dependency", level := .error, minCount := 1,
    existsFlag := true,
    pattern := fun s =>
      let tableName := GetTableName s
      if tableName = [] then none else some (recursiveDependencyRE tableName) }

/-- CheckPrimaryKeyExists (list.cpp): guarded by IsCreateStatement; WARN,
exists = false, count 1. -/
def CheckPrimaryKeyExists : Rule :=
  { title := "Primary Key Does Not Exist", level := .warn, minCount := 1,
    existsFlag := false,
    pattern := fun s => if IsCreateStatement s then some primaryKeyRE else none }

/-- CheckGenericPrimaryKey (list.cpp): guarded by IsDDLStatement; ERROR,
exists, count 1. -/
def CheckGenericPrimaryKey : Rule :=
  { title := "Generic Primary Key", level := .error, minCount := 1,
    existsFlag := true,
    pattern := fun s => if IsDDLStatement s then some genericPrimaryKeyRE else none }

/-- CheckForeignKeyExists (list.cpp): guarded by IsCreateStatement; WARN,
exists = false, count 1. -/
def CheckForeignKeyExists : Rule :=
  { title := "Foreign Key Does Not Exist", level := .warn, minCount := 1,
    existsFlag := false,
    pattern := fun s => if IsCreateStatement s then some foreignKeyRE else none }

/-- CheckVariableAttribute (list.cpp): returns when GetTableName is empty or
the table name does not contain "attribute"; WARN, exists, count 1. -/
def CheckVariableAttribute : Rule :=
  { title := "Entity-Attribute-Value Pattern", level := .warn, minCount := 1,
    existsFlag := true,
    pattern := fun s =>
      let tableName := GetTableName s
      if tableName = [] then none
      else if containsSub ("attribute".data) tableName then some attributeRE
      else none }

/-- CheckMetadataTribbles (list.cpp): guarded by IsDDLStatement; ERROR,
exists, count 1. -/
def CheckMetadataTribbles : Rule :=
  { title := "Metadata Tribbles", level := .error, minCount := 1,
    existsFlag := true,
    pattern := fun s => if IsDDLStatement s then some metadataTribblesRE else none }

/-- CheckFloat (list.cpp): no guard, ERROR, exists, count 1. -/
def CheckFloat : Rule :=
  { title := "Imprecise Data Type", level := .error, minCount := 1,
    existsFlag := true, pattern := fun _ => some floatRE }

/-- CheckValuesInDefinition (list.cpp): guarded by IsDDLStatement; WARN,
exists, count 1. -/
def CheckValuesInDefinition : Rule :=
  { title := "Values In Definition", level := .warn, minCount := 1,
    existsFlag := true,
    pattern := fun s => if IsDDLStatement s then some valuesInDefinitionRE else none }

/-- CheckExternalFiles (list.cpp): no guard, WARN, exists, count 1. -/
def CheckExternalFiles : Rule :=
  { title := "Files Are Not SQL Data Types", level := .warn, minCount := 1,
    existsFlag := true, pattern := fun _ => some externalFilesRE }

/-- CheckIndexCount (list.cpp): guarded by IsCreateStatement; WARN, exists,
min_count 3. -/
def CheckIndexCount : Rule :=
  { title := "Too Many Indexes", level := .warn, minCount := 3,
    existsFlag := true,
    pattern := fun s => if IsCreateStatement s then some indexRE else none }

/-- CheckIndexAttributeOrder (list.cpp): no guard, INFO, exists, count 1. -/
def CheckIndexAttributeOrder : Rule :=
  { title := "Index Attribute Order", level := .info, minCount := 1,
    existsFlag := true, pattern := fun _ => some createIndexRE }

/-- CheckSelectStar (list.cpp): no guard, ERROR, exists, count 1. -/
def CheckSelectStar : Rule :=
  { title := "SELECT *", level := .error, minCount := 1,
    existsFlag := true, pattern := fun _ => some selectStarRE }

/-- CheckNullUsage (list.cpp): no guard, INFO, exists, count 1. -/
def CheckNullUsage : Rule :=
  { title := "NULL Usage", level := .info, minCount := 1,
    existsFlag := true, pattern := fun _ => some nullRE }

/-- CheckNotNullUsage (list.cpp): guarded by IsCreateStatement; WARN,
exists, count 1. -/
def CheckNotNullUsage : Rule :=
  { title := "NOT NULL Usage", level := .warn, minCount := 1,
    existsFlag := true,
    pattern := fun s => if IsCreateStatement s then some notNullRE else none }

/-- CheckConcatenation (list.cpp): no guard, INFO, exists, count 1. -/
def CheckConcatenation : Rule :=
  { title := "String Concatenation", level := .info, minCount := 1,
    existsFlag := true, pattern := fun _ => some concatenationRE }

/-- CheckGroupByUsage (list.cpp): no guard, INFO, exists, count 1. -/
def CheckGroupByUsage : Rule :=
  { title := "GROUP BY Usage", level := .info, minCount := 1,
    existsFlag := true, pattern := fun _ => some groupByRE }

/-- CheckOrderByRand (list.cpp): no guard, WARN, exists, count 1. -/
def CheckOrderByRand : Rule :=
  { title := "ORDER BY RAND Usage", level := .warn, minCount := 1,
    existsFlag := true, pattern := fun _ => some orderByRandRE }

/-- CheckPatternMatching (list.cpp): no guard, WARN, exists, count 1. -/
def CheckPatternMatching : Rule :=
  { title := "Pattern Matching Usage", level := .warn, minCount := 1,
    existsFlag := true, pattern := fun _ => some patternMatchingRE }

/-- CheckSpaghettiQuery (list.cpp): picks `.*` when the statement has at
least 500 characters and the sentinel literal `pattern must not exist`
otherwise; INFO, exists, count 1. -/
def CheckSpaghettiQuery : Rule :=
  { title := "Spaghetti Query Alert", level := .info, minCount := 1,
    existsFlag := true,
    pattern := fun s =>
      some (if 500 ≤ s.length then spaghettiTrueRE else spaghettiFalseRE) }

/-- CheckJoinCount (list.cpp): no guard, INFO, exists, min_count 5. -/
def CheckJoinCount : Rule :=
  { title := "Reduce Number of JOINs", level := .info, minCount := 5,
    existsFlag := true, pattern := fun _ => some joinRE }

/-- CheckDistinctCount (list.cpp): no guard, INFO, exists, min_count 5. -/
def CheckDistinctCount : Rule :=
  { title := "Eliminate Unnecessary DISTINCT Conditions", level := .info,
    minCount := 5, existsFlag := true, pattern := fun _ => some distinctRE }

/-- CheckImplicitColumns (list.cpp): no guard, INFO, exists, count 1. -/
def CheckImplicitColumns : Rule :=
  { title := "Implicit Column Usage", level := .info, minCount := 1,
    existsFlag := true, pattern := fun _ => some implicitColumnsRE }

/-- CheckHaving (list.cpp): no guard, INFO, exists, count 1. -/
def CheckHaving : Rule :=
  { title := "HAVING Clause Usage", level := .info, minCount := 1,
    existsFlag := true, pattern := fun _ => some havingRE }

/-- CheckNesting (list.cpp): no guard, INFO, exists, min_count 2. -/
def CheckNesting : Rule :=
  { title := "Nested sub queries", level := .info, minCount := 2,
    existsFlag := true, pattern := fun _ => some selectRE }

/-- CheckOr (list.cpp): no guard, INFO, exists, count 1. -/
def CheckOr : Rule :=
  { title := "OR Usage", level := .info, minCount := 1,
    existsFlag := true, pattern := fun _ => some orRE }

/-- CheckUnion (list.cpp): no guard, INFO, exists, count 1. -/
def CheckUnion : Rule :=
  { title := "UNION Usage", level := .info, minCount := 1,
    existsFlag := true, pattern := fun _ => some unionRE }

/-- CheckDistinctJoin (list.cpp): no guard, INFO, exists, count 1. -/
def CheckDistinctJoin : Rule :=
  { title := "DISTINCT & JOIN Usage", level := .info, minCount := 1,
    existsFlag := true, pattern := fun _ => some distinctJoinRE }

/-- CheckReadablePasswords (list.cpp): no guard, INFO, exists, count 1. -/
def CheckReadablePasswords : Rule :=
  { title := "Readable Passwords", level := .info, minCount := 1,
    existsFlag := true, pattern := fun _ => some readablePasswordsRE }

/-- The rule catalog, in the declaration order of list.cpp (the fixed,
deterministic evaluation order required by spec §4.4). -/
def catalog : List Rule :=
  [CheckMultiValuedAttribute, CheckRecursiveDependency, CheckPrimaryKeyExists,
   CheckGenericPrimaryKey, CheckForeignKeyExists, CheckVariableAttribute,
   CheckMetadataTribbles, CheckFloat, CheckValuesInDefinition,
   CheckExternalFiles, CheckIndexCount, CheckIndexAttributeOrder,
   CheckSelectStar, CheckNullUsage, CheckNotNullUsage, CheckConcatenation,
   CheckGroupByUsage, CheckOrderByRand, CheckPatternMatching,
   CheckSpaghettiQuery, CheckJoinCount, CheckDistinctCount,
   CheckImplicitColumns, CheckHaving, CheckNesting, CheckOr, CheckUnion,
   CheckDistinctJoin, CheckReadablePasswords]

/-- Modelled from the spec: CheckStatement (checker.cpp, not under src/)
evaluates every rule of the catalog against the statement in declaration
order at the configured minimum risk tier and collects the admitted
findings in that order. -/
def checkStatement (tier : Nat) (s : List Char) : List Finding :=
  catalog.filterMap (fun r => r.eval tier s)

/-- The claim-side reading of table-name extraction, written from the spec's
words: the first whitespace-delimited token following the creation clause
(leading whitespace dropped, token up to the next whitespace), used to
compare GetTableName against the specification. -/
def specFirstToken (l : List Char) : List Char :=
  (l.dropWhile (fun c => c = ' ')).takeWhile (fun c => decide (c ≠ ' '))

theorem mlens_litChars : ∀ (pat s : List Char),
    mlens (litChars pat) s = if pat.isPrefixOf s then [pat.length] else []
  | [], s => by simp [litChars, mlens, List.isPrefixOf]
  | _ :: _, [] => by simp [litChars, mlens, List.isPrefixOf]
  | p :: ps, a :: t => by
    have ih := mlens_litChars ps t
    by_cases hap : p = a
    · subst hap
      simp only [litChars, List.map_cons, List.foldr_cons] at *
      simp only [mlens, ih, List.isPrefixOf, beq_self_eq_true, Bool.true_and]
      by_cases hp : ps.isPrefixOf t <;>
        simp [hp, ih, Nat.add_comm, List.length_cons]
    · have hbeq : (p == a) = false := beq_eq_false_iff_ne.mpr hap
      have hap2 : ¬ a = p := fun h => hap h.symm
      simp only [litChars, List.map_cons, List.foldr_cons] at *
      simp [mlens, List.isPrefixOf, hbeq, hap2]

theorem containsSub_infix_iff : ∀ (pat s : List Char),
    containsSub pat s = true ↔ pat <:+: s
  | pat, [] => by
    by_cases h : pat = [] <;>
      simp [containsSub, afterSub, h, List.infix_nil]
  | pat, c :: rest => by
    have ih := containsSub_infix_iff pat rest
    rw [List.infix_cons_iff, ← @List.isPrefixOf_iff_prefix _ _ _ pat (c :: rest),
      ← ih]
    by_cases h : pat.isPrefixOf (c :: rest) <;>
      simp [containsSub, afterSub, h]

theorem afterSub_suffix : ∀ (pat s rest : List Char),
    afterSub pat s = some rest → rest <:+ s
  | pat, [], rest => fun he => by
    by_cases h : pat = []
    · have hr : rest = [] := by simpa [afterSub, h] using he.symm
      simp [hr]
    · simp [afterSub, h] at he
  | pat, c :: t, rest => fun he => by
    by_cases h : pat.isPrefixOf (c :: t)
    · have hr : rest = (c :: t).drop pat.length := by
        simpa [afterSub, h] using he.symm
      rw [hr]
      exact List.drop_suffix _ _
    · exact (afterSub_suffix pat t rest (by simpa [afterSub, h] using he)).trans
        (List.suffix_cons c t)

theorem countAux_pos_of_contains : ∀ (fuel : Nat) (pat s : List Char),
    s.length < fuel → containsSub pat s = true →
    1 ≤ countAux (litChars pat) fuel s
  | 0, _, s, hf, _ => absurd hf (Nat.not_lt_zero _)
  | fuel + 1, pat, s, hf, hc => by
    by_cases hp : pat.isPrefixOf s
    · cases s with
      | nil => simp [countAux, mlens_litChars, hp]
      | cons c rest =>
        simp only [countAux, mlens_litChars, hp, if_true, List.max?]
        split <;> omega
    · cases s with
      | nil =>
        exfalso
        have hne : pat ≠ [] := fun he => hp (by simp [he, List.isPrefixOf])
        simp [containsSub, afterSub, hne] at hc
      | cons c rest =>
        have hc2 : containsSub pat rest = true := by
          simpa [containsSub, afterSub, hp] using hc
        have := countAux_pos_of_contains fuel pat rest
          (by simpa using Nat.lt_of_succ_lt_succ hf) hc2
        simpa [countAux, mlens_litChars, hp] using this

theorem count_pos_of_contains (pat s : List Char)
    (hc : containsSub pat s = true) :
    1 ≤ countMatches (litChars pat) s :=
  countAux_pos_of_contains (s.length + 1) pat s (Nat.lt_succ_self _) hc

theorem prefix_of_squeezeSpaces : ∀ (pat w : List Char),
    (∀ c ∈ pat, c ≠ ' ') → pat <+: squeezeSpaces w → pat <+: w
  | _, [], _, h => by simpa [squeezeSpaces] using h
  | _, [_], _, h => by simpa [squeezeSpaces] using h
  | pat, c1 :: c2 :: rest, hp, h => by
    by_cases hsp : c1 = ' ' ∧ c2 = ' '
    · have h2 : pat <+: squeezeSpaces (c2 :: rest) := by
        simpa [squeezeSpaces, hsp] using h
      have h3 := prefix_of_squeezeSpaces pat (c2 :: rest) hp h2
      cases pat with
      | nil => exact List.nil_prefix
      | cons p ps =>
        exfalso
        have hpc := (List.cons_prefix_cons.mp h3).1
        exact hp p (List.mem_cons_self p ps) (hpc.trans hsp.2)
    · have h2 : pat <+: c1 :: squeezeSpaces (c2 :: rest) := by
        simpa [squeezeSpaces, hsp] using h
      cases pat with
      | nil => exact List.nil_prefix
      | cons p ps =>
        obtain ⟨hpc, hps⟩ := List.cons_prefix_cons.mp h2
        exact List.cons_prefix_cons.mpr
          ⟨hpc, prefix_of_squeezeSpaces ps (c2 :: rest)
            (fun c hc => hp c (List.mem_cons_of_mem p hc)) hps⟩

theorem infix_of_squeezeSpaces : ∀ (pat w : List Char),
    (∀ c ∈ pat, c ≠ ' ') → pat <:+: squeezeSpaces w → pat <:+: w
  | _, [], _, h => by simpa [squeezeSpaces] using h
  | _, [_], _, h => by simpa [squeezeSpaces] using h
  | pat, c1 :: c2 :: rest, hp, h => by
    by_cases hsp : c1 = ' ' ∧ c2 = ' '
    · have h2 : pat <:+: squeezeSpaces (c2 :: rest) := by
        simpa [squeezeSpaces, hsp] using h
      exact List.infix_cons (infix_of_squeezeSpaces pat (c2 :: rest) hp h2)
    · have h2 : pat <:+: c1 :: squeezeSpaces (c2 :: rest) := by
        simpa [squeezeSpaces, hsp] using h
      rcases List.infix_cons_iff.mp h2 with hpre | hinf
      · cases pat with
        | nil => exact List.nil_infix
        | cons p ps =>
          obtain ⟨hpc, hps⟩ := List.cons_prefix_cons.mp hpre
          exact (List.cons_prefix_cons.mpr
            ⟨hpc, prefix_of_squeezeSpaces ps (c2 :: rest)
              (fun c hc => hp c (List.mem_cons_of_mem p hc)) hps⟩).isInfix
      · exact List.infix_cons (infix_of_squeezeSpaces pat (c2 :: rest) hp hinf)

theorem squeezeSpaces_cons : ∀ (c : Char) (rest : List Char),
    ∃ t, squeezeSpaces (c :: rest) = c :: t
  | c, [] => ⟨[], rfl⟩
  | c, c2 :: rest => by
    by_cases h : c = ' ' ∧ c2 = ' '
    · obtain ⟨t, ht⟩ := squeezeSpaces_cons c2 rest
      refine ⟨t, ?_⟩
      rw [show squeezeSpaces (c :: c2 :: rest) = squeezeSpaces (c2 :: rest) from
        by simp [squeezeSpaces, h], ht, h.1, h.2]
    · exact ⟨squeezeSpaces (c2 :: rest), by simp [squeezeSpaces, h]⟩

theorem takeWhile_squeezeSpaces : ∀ (v : List Char),
    (squeezeSpaces v).takeWhile (fun c => decide (c ≠ ' '))
      = v.takeWhile (fun c => decide (c ≠ ' '))
  | [] => rfl
  | [_] => rfl
  | c1 :: c2 :: rest => by
    have ih := takeWhile_squeezeSpaces (c2 :: rest)
    by_cases hsp : c1 = ' ' ∧ c2 = ' '
    · obtain ⟨h1, h2⟩ := hsp
      subst h1
      subst h2
      rw [show squeezeSpaces (' ' :: ' ' :: rest) = squeezeSpaces (' ' :: rest)
        from by simp [squeezeSpaces]]
      obtain ⟨t, ht⟩ := squeezeSpaces_cons ' ' rest
      rw [ht]
      simp [List.takeWhile_cons]
    · rw [show squeezeSpaces (c1 :: c2 :: rest) = c1 :: squeezeSpaces (c2 :: rest)
        from by simp [squeezeSpaces, hsp]]
      rw [List.takeWhile_cons, List.takeWhile_cons, ih]

theorem takeWhile_append_spaces : ∀ (w t : List Char), (∀ c ∈ t, c = ' ') →
    (w ++ t).takeWhile (fun c => decide (c ≠ ' '))
      = w.takeWhile (fun c => decide (c ≠ ' '))
  | [], t, ht => by
    cases t with
    | nil => rfl
    | cons c u => simp [List.takeWhile_cons, ht c (List.mem_cons_self c u)]
  | a :: w, t, ht => by
    rw [List.cons_append, List.takeWhile_cons, List.takeWhile_cons,
      takeWhile_append_spaces w t ht]

theorem trimTrailing_decomp (u : List Char) :
    u = trimTrailingSpaces u
        ++ (u.reverse.takeWhile (fun c => decide (c = ' '))).reverse := by
  conv_lhs => rw [← u.reverse_reverse,
    ← List.takeWhile_append_dropWhile (fun c => decide (c = ' ')) u.reverse]
  rw [List.reverse_append]
  rfl

theorem takeWhile_trimTrailingSpaces (u : List Char) :
    (trimTrailingSpaces u).takeWhile (fun c => decide (c ≠ ' '))
      = u.takeWhile (fun c => decide (c ≠ ' ')) := by
  conv_rhs => rw [trimTrailing_decomp u]
  rw [takeWhile_append_spaces]
  intro c hc
  simpa using List.mem_takeWhile_imp (List.mem_reverse.mp hc)

theorem trimTrailing_prefix_self (l : List Char) : trimTrailingSpaces l <+: l := by
  unfold trimTrailingSpaces
  conv_rhs => rw [← l.reverse_reverse]
  exact List.reverse_prefix.mpr (List.dropWhile_suffix _)

theorem getTableName_spec (s rest : List Char)
    (h : afterSub createTableTemplate s = some rest) :
    GetTableName s = specFirstToken rest := by
  have hg : GetTableName s
      = (collapseSpaces rest).takeWhile (fun c => decide (c ≠ ' ')) := by
    unfold GetTableName
    rw [h]
  rw [hg]
  unfold collapseSpaces specFirstToken
  rw [takeWhile_trimTrailingSpaces, takeWhile_squeezeSpaces]

theorem eval_mono {r : Rule} {t t' : Nat} {s : List Char} {f : Finding}
    (ht : t ≤ t') (h : r.eval t' s = some f) : r.eval t s = some f := by
  unfold Rule.eval at *
  by_cases h1 : r.level.rank < t'
  · simp [h1] at h
  · have h2 : ¬ r.level.rank < t := by omega
    simp only [if_neg h1] at h
    simpa [h2] using h

/-- C1 (counterexample): the claim that no rule ever fires on a statement
whose pattern-match count is below its threshold — explicitly including
"Primary Key Does Not Exist" — is false: CheckPrimaryKeyExists is in the
catalog, its guard IsCreateStatement holds on "create table t (id int)",
its pattern "(primary key)" has zero matches there (below its
min_occurrences of 1), and yet the rule fires. -/
theorem c1_counterexample :
    CheckPrimaryKeyExists ∈ catalog ∧
    CheckPrimaryKeyExists.pattern ("create table t (id int)".data)
      = some primaryKeyRE ∧
    countMatches primaryKeyRE ("create table t (id int)".data) = 0 ∧
    CheckPrimaryKeyExists.minCount = 1 ∧
    CheckPrimaryKeyExists.fires ("create table t (id int)".data) = true := by
  refine ⟨?_, rfl, by decide, rfl, by decide⟩
  unfold catalog
  exact List.mem_cons_of_mem _ (List.mem_cons_of_mem _ (List.mem_cons_self _ _))

/-- C1 (amended): for every rule in the catalog and every statement, the
rule fires iff its applicability guard holds (its pattern is constructed),
and — for the rules passing exists = true — the pattern-match count reaches
min_occurrences, while the exists = false rules ("Primary Key Does Not
Exist" and "Foreign Key Does Not Exist") fire iff the count stays below the
threshold, i.e. the pattern is absent. -/
theorem c1_rule_firing (r : Rule) (_hr : r ∈ catalog) (s : List Char) :
    r.fires s = true ↔ ∃ re, r.pattern s = some re ∧
      (if r.existsFlag then r.minCount ≤ countMatches re s
       else countMatches re s < r.minCount) := by
  unfold Rule.fires
  cases h : r.pattern s with
  | none => simp [h]
  | some re => by_cases he : r.existsFlag <;> simp [h, he]

/-- Witness for C1: the firing characterisation instantiated at
CheckSelectStar on a concrete statement. -/
theorem c1_rule_firing_witness :
    CheckSelectStar.fires ("select * from accounts".data) = true ↔
      ∃ re, CheckSelectStar.pattern ("select * from accounts".data) = some re ∧
        (if CheckSelectStar.existsFlag
         then CheckSelectStar.minCount
            ≤ countMatches re ("select * from accounts".data)
         else countMatches re ("select * from accounts".data)
            < CheckSelectStar.minCount) :=
  c1_rule_firing CheckSelectStar (by simp [catalog]) ("select * from accounts".data)

/-- C2: for every statement with exactly 4 non-overlapping occurrences of
"join", the rule "Reduce Number of JOINs" (min_occurrences 5) does not
fire; for every statement with exactly 5 occurrences, it fires. -/
theorem c2_join_count_threshold (s : List Char) :
    (countMatches joinRE s = 4 → CheckJoinCount.fires s = false) ∧
    (countMatches joinRE s = 5 → CheckJoinCount.fires s = true) := by
  constructor <;> intro h <;> simp [CheckJoinCount, Rule.fires, h]

/-- Witness for C2: concrete statements with exactly 4 and exactly 5
occurrences of "join". -/
theorem c2_join_count_threshold_witness :
    CheckJoinCount.fires ("a join b join c join d join e".data) = false ∧
    CheckJoinCount.fires ("a join b join c join d join e join f".data) = true :=
  ⟨(c2_join_count_threshold _).1 (by decide),
   (c2_join_count_threshold _).2 (by decide)⟩

/-- C3 (code-bug demonstration): the 499-character statement made of the
text "pattern must not exist" followed by 477 'a' characters fires
"Spaghetti Query Alert", although the claim (and the sentinel's own
wording) says a statement under 500 characters never fires it: the
under-500 branch of CheckSpaghettiQuery matches the sentinel literal
"pattern must not exist", which this statement contains. -/
theorem c3_sentinel_leak :
    ("pattern must not exist".data ++ List.replicate 477 'a').length = 499 ∧
    CheckSpaghettiQuery.fires
      ("pattern must not exist".data ++ List.replicate 477 'a') = true :=
  ⟨by decide, by decide⟩

/-- C4: for a fixed statement, the findings admitted at risk tier 1 are a
superset of those admitted at tier 2, which are a superset of those
admitted at tier 3. -/
theorem c4_risk_filter_monotone (s : List Char) (f : Finding) :
    (f ∈ checkStatement 2 s → f ∈ checkStatement 1 s) ∧
    (f ∈ checkStatement 3 s → f ∈ checkStatement 2 s) := by
  refine ⟨fun h => ?_, fun h => ?_⟩
  all_goals
    unfold checkStatement at h ⊢
    rw [List.mem_filterMap] at h ⊢
    obtain ⟨r, hr, he⟩ := h
    exact ⟨r, hr, eval_mono (by omega) he⟩

/-- Witness for C4: the tier-3 "SELECT *" finding on a concrete statement
is also admitted at tier 2. -/
theorem c4_risk_filter_monotone_witness :
    (⟨"SELECT *", LogLevel.error⟩ : Finding)
      ∈ checkStatement 2 ("select * from accounts".data) :=
  (c4_risk_filter_monotone ("select * from accounts".data)
    ⟨"SELECT *", LogLevel.error⟩).2 (by decide)

/-- C5: evaluating the full catalog on "select * from accounts" yields
exactly the single Error-risk "SELECT *" finding at tier 1 and the same
single finding at tier 3, and "select first_name from accounts where
id = 1" yields zero findings at every tier in {1, 2, 3}. -/
theorem c5_end_to_end :
    checkStatement 1 ("select * from accounts".data)
      = [⟨"SELECT *", LogLevel.error⟩] ∧
    checkStatement 3 ("select * from accounts".data)
      = [⟨"SELECT *", LogLevel.error⟩] ∧
    checkStatement 1 ("select first_name from accounts where id = 1".data) = [] ∧
    checkStatement 2 ("select first_name from accounts where id = 1".data) = [] ∧
    checkStatement 3 ("select first_name from accounts where id = 1".data) = [] :=
  ⟨by decide, by decide, by decide, by decide, by decide⟩

/-- C6: GetTableName returns "accounts" on "create table accounts (id int)"
and nothing (the empty string) on "select * from accounts"; in general it
returns nothing when no creation clause occurs, and when one does occur it
returns the first space-delimited token following the clause (surrounding
spaces collapsed, as the spec-side specFirstToken states). -/
theorem c6_table_name_extraction :
    GetTableName ("create table accounts (id int)".data) = "accounts".data ∧
    GetTableName ("select * from accounts".data) = [] ∧
    (∀ s : List Char, containsSub createTableTemplate s = false →
      GetTableName s = []) ∧
    (∀ s rest : List Char, afterSub createTableTemplate s = some rest →
      GetTableName s = specFirstToken rest) := by
  refine ⟨by decide, by decide, fun s h => ?_, fun s rest h => getTableName_spec s rest h⟩
  have ha : afterSub createTableTemplate s = none := by
    unfold containsSub at h
    cases ha : afterSub createTableTemplate s with
    | none => rfl
    | some r => rw [ha] at h; simp at h
  unfold GetTableName
  rw [ha]

/-- Witness for C6: the general token characterisation instantiated on a
concrete CREATE TABLE statement with extra spacing. -/
theorem c6_table_name_extraction_witness :
    GetTableName ("create table   customers   (id int)".data)
      = specFirstToken ("   customers   (id int)".data) :=
  c6_table_name_extraction.2.2.2 _ _ (by decide)

/-- C7: "create table t (id serial, name varchar(50))" fires
"Generic Primary Key", while "select id from t" does not because the DDL
applicability guard fails on it. -/
theorem c7_generic_primary_key_guard :
    CheckGenericPrimaryKey.fires
      ("create table t (id serial, name varchar(50))".data) = true ∧
    IsDDLStatement ("select id from t".data) = false ∧
    CheckGenericPrimaryKey.fires ("select id from t".data) = false :=
  ⟨by decide, by decide, by decide⟩

/-- C8: when no table name is extractable, "Recursive Dependency" never
fires; when a table name is extracted, the rule fires exactly via matches
of the pattern built from that name, never via an empty pattern. -/
theorem c8_recursive_dependency_guard (s : List Char) :
    (GetTableName s = [] → CheckRecursiveDependency.fires s = false) ∧
    (GetTableName s ≠ [] →
      (CheckRecursiveDependency.fires s = true ↔
        1 ≤ countMatches (recursiveDependencyRE (GetTableName s)) s)) := by
  constructor <;> intro h <;> simp [CheckRecursiveDependency, Rule.fires, h]

/-- Witness for C8: no firing on a statement without a table name, firing
on a self-referencing CREATE TABLE statement. -/
theorem c8_recursive_dependency_guard_witness :
    CheckRecursiveDependency.fires ("select * from accounts".data) = false ∧
    CheckRecursiveDependency.fires
      ("create table boss (id int references boss)".data) = true :=
  ⟨(c8_recursive_dependency_guard _).1 (by decide),
   ((c8_recursive_dependency_guard _).2 (by decide)).mpr (by decide)⟩

/-- C9: whenever the extracted table name is non-empty and contains
"attribute", the statement text itself contains a match of the pattern
"(attribute)", so the Entity-Attribute-Value rule's pattern test succeeds
whenever its guard passes and the rule fires (admitted at tier 1). -/
theorem c9_eav_guard_forces_match (s : List Char)
    (h1 : GetTableName s ≠ [])
    (h2 : containsSub ("attribute".data) (GetTableName s) = true) :
    1 ≤ countMatches attributeRE s ∧
    CheckVariableAttribute.fires s = true ∧
    CheckVariableAttribute.eval 1 s
      = some ⟨"Entity-Attribute-Value Pattern", LogLevel.warn⟩ := by
  obtain ⟨rest, hrest⟩ : ∃ rest, afterSub createTableTemplate s = some rest := by
    cases ha : afterSub createTableTemplate s with
    | none =>
      exfalso
      apply h1
      unfold GetTableName
      rw [ha]
    | some rest => exact ⟨rest, rfl⟩
  have hgtn : GetTableName s
      = (collapseSpaces rest).takeWhile (fun c => decide (c ≠ ' ')) := by
    unfold GetTableName
    rw [hrest]
  have hinf1 : ("attribute".data) <:+: GetTableName s :=
    (containsSub_infix_iff _ _).mp h2
  have hinf2 : ("attribute".data) <:+: collapseSpaces rest := by
    rw [hgtn] at hinf1
    exact hinf1.trans (List.takeWhile_prefix _).isInfix
  have hinf3 : ("attribute".data)
      <:+: squeezeSpaces (rest.dropWhile (fun c => decide (c = ' '))) := by
    unfold collapseSpaces at hinf2
    exact hinf2.trans (trimTrailing_prefix_self _).isInfix
  have hfree : ∀ c ∈ ("attribute".data), c ≠ ' ' := by decide
  have hinf4 : ("attribute".data) <:+: rest.dropWhile (fun c => decide (c = ' ')) :=
    infix_of_squeezeSpaces _ _ hfree hinf3
  have hinf5 : ("attribute".data) <:+: rest :=
    hinf4.trans (List.dropWhile_suffix _).isInfix
  have hinf6 : ("attribute".data) <:+: s :=
    hinf5.trans (afterSub_suffix _ _ _ hrest).isInfix
  have hcount : 1 ≤ countMatches (litChars ("attribute".data)) s :=
    count_pos_of_contains _ _ ((containsSub_infix_iff _ _).mpr hinf6)
  have hcount2 : 1 ≤ countMatches attributeRE s := hcount
  have hfires : CheckVariableAttribute.fires s = true := by
    simp [CheckVariableAttribute, Rule.fires, h1, h2, hcount2]
  refine ⟨hcount2, hfires, ?_⟩
  unfold Rule.eval
  rw [hfires]
  simp [CheckVariableAttribute, LogLevel.rank]

/-- Witness for C9: instantiated on a CREATE TABLE statement whose table
name contains "attribute". -/
theorem c9_eav_guard_forces_match_witness :
    1 ≤ countMatches attributeRE ("create table attributes (id int)".data) ∧
    CheckVariableAttribute.fires ("create table attributes (id int)".data) = true ∧
    CheckVariableAttribute.eval 1 ("create table attributes (id int)".data)
      = some ⟨"Entity-Attribute-Value Pattern", LogLevel.warn⟩ :=
  c9_eav_guard_forces_match _ (by decide) (by decide)

/-- C10: the classifier helpers are consistent: IsCreateStatement implies
IsDDLStatement, and a non-empty GetTableName result implies
IsCreateStatement. -/
theorem c10_classifier_consistency (s : List Char) :
    (IsCreateStatement s = true → IsDDLStatement s = true) ∧
    (GetTableName s ≠ [] → IsCreateStatement s = true) := by
  constructor
  · intro h
    unfold IsDDLStatement
    unfold IsCreateStatement at h
    rw [h]
    rfl
  · intro h
    unfold IsCreateStatement containsSub
    cases ha : afterSub createTableTemplate s with
    | none =>
      exfalso
      apply h
      unfold GetTableName
      rw [ha]
    | some rest => rfl

/-- Witness for C10: both implications instantiated on a concrete CREATE
TABLE statement. -/
theorem c10_classifier_consistency_witness :
    IsDDLStatement ("create table foo (id int)".data) = true ∧
    IsCreateStatement ("create table foo (id int)".data) = true :=
  ⟨(c10_classifier_consistency _).1 (by decide),
   (c10_classifier_consistency _).2 (by decide)⟩

end SqlCheck
